import Mathlib

/-
Shallow embedding of the dynamic tool lifecycle registry
(src/tool_fabric.py): MCPClient, BaseTool, InternalFunctionTool,
MCPBasedTool, create_tool, ToolFabric, and the consumer attachment.

Modelling conventions:
- Python dicts keyed by strings are association lists with in-place
  replacement on key collision (dictInsert) and single-entry deletion
  (dictDelete), matching CPython dict semantics (insertion order kept,
  assignment to an existing key keeps its position).
- `print` calls become structured LogEvent values threaded through the
  return type; a method that can raise returns an `Option String`
  exception slot next to its (mutated) state, because a Python
  exception propagates while in-place mutations already made persist.
- Threads: an MCPClient records whether a monitoring thread was created
  (health_thread) and whether it is still running (health_alive); the
  health loop body is healthLoop, and `Thread.join` during disconnect
  is modelled by running healthLoop, which exits at its first check of
  the _stop_health flag.
- subprocess.Popen, importlib.import_module and Popen.terminate are
  external effects, abstracted as an Env record of fallible functions
  (a Python exception is the .error case).
-/

/-- JSON-like values used for tool arguments, results and payloads. -/
inductive Value where
  | null : Value
  | str (s : String) : Value
  | num (n : Int) : Value
  | obj (fields : List (String × Value)) : Value

/-- Python truthiness for the payload default in MCPBasedTool.to_tool
(`payload = payload or \x7b\x7d`). -/
def Value.truthy : Value → Bool
  | .null => false
  | .str s => !s.isEmpty
  | .num n => n != 0
  | .obj l => !l.isEmpty

/-- Console output of the program, structured: plain prints, the
"WARNING: not connected" print of MCPClient.send (a dropped message),
and the "SEND" print of a connected MCPClient.send. -/
inductive LogEvent where
  | info (msg : String) : LogEvent
  | droppedWarning (client : String) : LogEvent
  | sendEvent (client : String) (protocol : String) (payload : Value) : LogEvent

/-- Number of dropped-message warnings in a log. -/
def droppedCount (logs : List LogEvent) : Nat :=
  logs.countP fun e => match e with
    | .droppedWarning _ => true
    | _ => false

/-- A Python callable wrapped by InternalFunctionTool: it may raise
(the .error case propagates verbatim to the invoker). -/
def Callable : Type := List Value → Except String Value

/-- A resolved Python module: a name → callable attribute table. -/
structure PyModule where
  attrs : List (String × Callable)

/-- getattr(module, f): AttributeError when the attribute is absent. -/
def PyModule.getattr (m : PyModule) (f : String) : Except String Callable :=
  match m.attrs.lookup f with
  | some c => .ok c
  | none => .error ("AttributeError: " ++ f)

/-- External effects: process launch (subprocess.Popen, returning a
process handle id), module import (importlib.import_module), and
process termination (Popen.terminate). `.error` is a raised
Python exception. -/
structure Env where
  popen : List String → Except String Nat
  import_module : String → Except String PyModule
  terminate : Nat → Except String Unit

/-- mcp_clients entry of a tool configuration (a YAML/dict record;
Option fields are keys looked up with .get defaults in the source). -/
structure ClientCfg where
  name : String
  host : String
  port : Nat
  protocol : Option String
  enabled : Option Bool
  auth_token : Option String

/-- health_check entry of a tool configuration. -/
structure HealthCfg where
  check_type : Option String
  interval : Option Nat

/-- A tool configuration dict. `command`, `module`, `function`,
`health_check` and `mcp_clients` model key presence with Option
(create_tool tests `"command" in tool_cfg`, start uses .get defaults). -/
structure ToolCfg where
  name : String
  command : Option (List String)
  module : Option String
  function : Option String
  health_check : Option HealthCfg
  mcp_clients : Option (List ClientCfg)

/-- MCPClient runtime state (src/tool_fabric.py, class MCPClient).
`health_thread` models `_health_thread is not None`; `health_alive`
models that thread not yet having returned. -/
structure MCPClient where
  name : String
  host : String
  port : Nat
  token : Option String
  protocol : String
  connected : Bool
  stop_health : Bool
  health_thread : Bool
  health_alive : Bool

/-- MCPClient.connect: the try body is a print plus an assignment and
cannot raise, so connect always sets connected := true. -/
def MCPClient.connect (c : MCPClient) : MCPClient × List LogEvent :=
  ({ c with connected := true },
   [LogEvent.info ("[MCPClient:" ++ c.name ++ "] Connecting via " ++ c.protocol
      ++ " to " ++ c.host)])

/-- MCPClient.send: when not connected, print a warning and return
(the message is dropped, state untouched); otherwise print the SEND
line. No exception path exists. -/
def MCPClient.send (c : MCPClient) (payload : Value) : MCPClient × List LogEvent :=
  if c.connected then
    (c, [LogEvent.sendEvent c.name c.protocol payload])
  else
    (c, [LogEvent.droppedWarning c.name])

/-- Body of the health-check thread (`health_loop` in
MCPClient.start_health_check): each period it first tests _stop_health
(loop guard) and exits if set, else reconnects when not connected.
Exiting the loop means the thread returns: health_alive := false.
`fuel` bounds the number of periods examined. -/
def healthLoop (fuel : Nat) (c : MCPClient) : MCPClient :=
  match fuel with
  | 0 => c
  | fuel + 1 =>
    if c.stop_health then { c with health_alive := false }
    else healthLoop fuel (if c.connected then c else (c.connect).1)

/-- MCPClient.disconnect: clear connected, set the _stop_health
cancellation flag, then join the monitoring thread when one exists.
The join is modelled by running healthLoop: with _stop_health already
set, the loop guard fails at its first check and the thread exits. -/
def MCPClient.disconnect (c : MCPClient) : MCPClient × List LogEvent :=
  let c1 := { c with connected := false, stop_health := true }
  let c2 := if c1.health_thread then healthLoop 1 c1 else c1
  (c2, [LogEvent.info ("[MCPClient:" ++ c.name ++ "] Disconnected")])

/-- MCPClient.start_health_check: creates and starts the daemon
monitoring thread (its periodic behaviour is healthLoop; the interval
only controls sleeping and does not change state). -/
def MCPClient.start_health_check (c : MCPClient) (interval : Nat) : MCPClient :=
  { c with health_thread := true, health_alive := true }

/-- Association-list read, Python `d[k]` / `d.get(k)`. -/
def dictGet {α : Type} (l : List (String × α)) (k : String) : Option α :=
  match l with
  | [] => none
  | (k', v) :: rest => if k' = k then some v else dictGet rest k

/-- Association-list write, Python `d[k] = v`: replace in place when
the key is present, else append. -/
def dictInsert {α : Type} (l : List (String × α)) (k : String) (v : α) :
    List (String × α) :=
  match l with
  | [] => [(k, v)]
  | (k', v') :: rest =>
    if k' = k then (k, v) :: rest else (k', v') :: dictInsert rest k v

/-- Association-list delete, Python `del d[k]`. -/
def dictDelete {α : Type} (l : List (String × α)) (k : String) :
    List (String × α) :=
  l.filter fun p => p.1 ≠ k

/-- Key list of an association list (Python `d.keys()`). -/
def dictKeys {α : Type} (l : List (String × α)) : List String :=
  l.map Prod.fst

/-- Shared per-instance state of BaseTool.__init__: name, config, the
mcp_clients list, and the (never-populated) _health_threads list that
BaseTool.stop joins. -/
structure BaseToolState where
  name : String
  config : ToolCfg
  mcp_clients : List MCPClient
  health_threads : List Unit

/-- Build one MCPClient from its config entry, as in
BaseTool._attach_mcp_clients (protocol defaults to "stdio", token from
the optional auth_token key; a fresh client starts disconnected). -/
def makeClient (cfg : ClientCfg) : MCPClient :=
  { name := cfg.name, host := cfg.host, port := cfg.port,
    token := cfg.auth_token, protocol := cfg.protocol.getD ("stdio"),
    connected := false, stop_health := false,
    health_thread := false, health_alive := false }

/-- Loop body of BaseTool._attach_mcp_clients over
config.get("mcp_clients", []): skip entries whose enabled key
(default true) is false, else construct, connect and append. -/
def attachClientList : List ClientCfg → List MCPClient × List LogEvent
  | [] => ([], [])
  | ccfg :: rest =>
    if ccfg.enabled.getD true = false then attachClientList rest
    else
      let (client, logs) := (makeClient ccfg).connect
      let (clients, logs') := attachClientList rest
      (client :: clients, logs ++ logs')

/-- BaseTool._attach_mcp_clients: append the connected clients to the
mcp_clients list of the instance. -/
def BaseTool.attach_mcp_clients (st : BaseToolState) : BaseToolState × List LogEvent :=
  let (clients, logs) := attachClientList (st.config.mcp_clients.getD [])
  ({ st with mcp_clients := st.mcp_clients ++ clients }, logs)

/-- BaseTool._start_health_checks: read the interval (default 10) from
the health_check entry (default empty) and start one health-check
thread per attached client. -/
def BaseTool.start_health_checks (st : BaseToolState) : BaseToolState :=
  let interval :=
    match st.config.health_check with
    | none => 10
    | some h => h.interval.getD 10
  { st with mcp_clients := st.mcp_clients.map (·.start_health_check interval) }

/-- Disconnect every client in order (loop of BaseTool.stop). -/
def disconnectAll : List MCPClient → List MCPClient × List LogEvent
  | [] => ([], [])
  | c :: rest =>
    let (c', logs) := c.disconnect
    let (rest', logs') := disconnectAll rest
    (c' :: rest', logs ++ logs')

/-- BaseTool.stop: disconnect all clients; the trailing join loop runs
over _health_threads, which no code path ever populates. -/
def BaseTool.stop (st : BaseToolState) : BaseToolState × List LogEvent :=
  let (clients, logs) := disconnectAll st.mcp_clients
  ({ st with mcp_clients := clients }, logs)

/-- A tool instance: MCPBasedTool carries the optional owned process
handle (None until start launches one), InternalFunctionTool carries
the callable resolved by start (absent before start). -/
inductive ToolInstance where
  | mcpBased (st : BaseToolState) (process : Option Nat) : ToolInstance
  | internalFunction (st : BaseToolState) (function : Option Callable) : ToolInstance

/-- The invocable closure a tool instance exposes: arguments to result
(or raised exception) plus console output. -/
def ToolFunc : Type := List Value → Except String Value × List LogEvent

/-- Send one payload through every client of a tool, collecting the
per-client console output (send itself drops when not connected). -/
def sendAll (clients : List MCPClient) (payload : Value) : List LogEvent :=
  match clients with
  | [] => []
  | c :: rest => (c.send payload).2 ++ sendAll rest payload

/-- InternalFunctionTool.to_tool: the closure calls self.function with
the given arguments (AttributeError when start never resolved it, and
any exception the callable raises propagates before any send), then
forwards a result-record to every client and returns the result. -/
def InternalFunctionTool.to_tool (st : BaseToolState) (fn : Option Callable) : ToolFunc :=
  fun args =>
    match fn with
    | none => (.error ("AttributeError: function"), [])
    | some f =>
      match f args with
      | .error e => (.error e, [])
      | .ok result =>
        (.ok result, sendAll st.mcp_clients (Value.obj [("result", result)]))

/-- MCPBasedTool.to_tool: the closure takes an action and an optional
payload (falsy payload defaults to an empty record), sends the
action-record to every client, and returns the fixed acknowledgement
string; it has no failure path besides a wrong call shape (TypeError). -/
def MCPBasedTool.to_tool (st : BaseToolState) : ToolFunc :=
  fun args =>
    match args with
    | [Value.str action] =>
      (.ok (Value.str ("[" ++ st.name ++ "] " ++ action ++ " executed")),
       sendAll st.mcp_clients
         (Value.obj [("action", Value.str action), ("payload", Value.obj [])]))
    | [Value.str action, payload] =>
      let payload := if payload.truthy then payload else Value.obj []
      (.ok (Value.str ("[" ++ st.name ++ "] " ++ action ++ " executed")),
       sendAll st.mcp_clients
         (Value.obj [("action", Value.str action), ("payload", payload)]))
    | _ => (.error ("TypeError"), [])

/-- ToolInstance.to_tool, dispatching on the variant. -/
def ToolInstance.to_tool : ToolInstance → ToolFunc
  | .mcpBased st _ => MCPBasedTool.to_tool st
  | .internalFunction st fn => InternalFunctionTool.to_tool st fn

/-- MCPBasedTool.start: self.process = None; when the command list
(default []) is non-empty, Popen it (a raised exception aborts start
before any client is attached); then attach clients and start health
checks. Returns the updated state, the console output, and the raised
exception if any. -/
def MCPBasedTool.start (env : Env) (st : BaseToolState) :
    (BaseToolState × Option Nat) × List LogEvent × Option String :=
  let cmd := st.config.command.getD []
  let launch : Except String (Option Nat) :=
    if cmd.isEmpty then .ok none else (env.popen cmd).map some
  match launch with
  | .error e => ((st, none), [], some e)
  | .ok proc =>
    let (st1, logs1) := BaseTool.attach_mcp_clients st
    let st2 := BaseTool.start_health_checks st1
    ((st2, proc),
     logs1 ++ [LogEvent.info ("[MCPBasedTool:" ++ st.name ++ "] Ready")], none)

/-- InternalFunctionTool.start: import_module(config["module"]) then
getattr(module, config["function"]) — a raised ImportError /
AttributeError (or KeyError for a missing config key) aborts start
before the callable is stored or any client attached; on success
attach clients and start health checks. -/
def InternalFunctionTool.start (env : Env) (st : BaseToolState) (fn : Option Callable) :
    (BaseToolState × Option Callable) × List LogEvent × Option String :=
  let moduleKey : Except String String :=
    match st.config.module with
    | some m => .ok m
    | none => .error ("KeyError: module")
  let functionKey : Except String String :=
    match st.config.function with
    | some f => .ok f
    | none => .error ("KeyError: function")
  match moduleKey with
  | .error e => ((st, fn), [], some e)
  | .ok mname =>
    match env.import_module mname with
    | .error e => ((st, fn), [], some e)
    | .ok pymod =>
      match functionKey with
      | .error e => ((st, fn), [], some e)
      | .ok fname =>
        match pymod.getattr fname with
        | .error e => ((st, fn), [], some e)
        | .ok f =>
          let (st1, logs1) := BaseTool.attach_mcp_clients st
          let st2 := BaseTool.start_health_checks st1
          ((st2, some f),
           logs1 ++ [LogEvent.info ("[InternalFunctionTool:" ++ st.name ++ "] Ready")],
           none)

/-- ToolInstance.start, dispatching on the variant. -/
def ToolInstance.start (env : Env) : ToolInstance → ToolInstance × List LogEvent × Option String
  | .mcpBased st proc =>
    let ((st', proc'), logs, exn) := MCPBasedTool.start env st
    (.mcpBased st' (match exn with | some _ => proc | none => proc'), logs, exn)
  | .internalFunction st fn =>
    let ((st', fn'), logs, exn) := InternalFunctionTool.start env st fn
    (.internalFunction st' fn', logs, exn)

/-- MCPBasedTool.stop: super().stop() disconnects every client, then
the owned process (if any) is terminated with no exception handler:
a raised termination error propagates, after the disconnects. -/
def MCPBasedTool.stop (env : Env) (st : BaseToolState) (proc : Option Nat) :
    (BaseToolState × Option Nat) × List LogEvent × Option String :=
  let (st1, logs) := BaseTool.stop st
  match proc with
  | none =>
    ((st1, proc), logs ++ [LogEvent.info ("[MCPBasedTool:" ++ st.name ++ "] Stopped")], none)
  | some pid =>
    match env.terminate pid with
    | .error e => ((st1, proc), logs, some e)
    | .ok _ =>
      ((st1, proc), logs ++ [LogEvent.info ("[MCPBasedTool:" ++ st.name ++ "] Stopped")], none)

/-- InternalFunctionTool.stop: super().stop() then a print; no
exception path. -/
def InternalFunctionTool.stop (st : BaseToolState) (fn : Option Callable) :
    (BaseToolState × Option Callable) × List LogEvent × Option String :=
  let (st1, logs) := BaseTool.stop st
  ((st1, fn), logs ++ [LogEvent.info ("[InternalFunctionTool:" ++ st.name ++ "] Stopped")], none)

/-- ToolInstance.stop, dispatching on the variant. -/
def ToolInstance.stop (env : Env) : ToolInstance → ToolInstance × List LogEvent × Option String
  | .mcpBased st proc =>
    let ((st', proc'), logs, exn) := MCPBasedTool.stop env st proc
    (.mcpBased st' proc', logs, exn)
  | .internalFunction st fn =>
    let ((st', fn'), logs, exn) := InternalFunctionTool.stop st fn
    (.internalFunction st' fn', logs, exn)

/-- create_tool (tool_factory.py): `"command" in tool_cfg` selects the
MCP-backed variant (taking precedence over module/function); else both
`"module"` and `"function"` present select the internal-function
variant; else ValueError. -/
def create_tool (cfg : ToolCfg) : Except String ToolInstance :=
  if cfg.command.isSome then
    .ok (.mcpBased { name := cfg.name, config := cfg,
                     mcp_clients := [], health_threads := [] } none)
  else if cfg.module.isSome && cfg.function.isSome then
    .ok (.internalFunction { name := cfg.name, config := cfg,
                             mcp_clients := [], health_threads := [] } none)
  else
    .error ("Unknown tool type for " ++ cfg.name)

/-- ToolFabric state: the name → instance map, the name → invocable
map, and the optional config path (YAML loading is external I/O and
not modelled beyond the field). A fresh fabric has both maps empty. -/
structure ToolFabric where
  tool_instances : List (String × ToolInstance)
  tools : List (String × ToolFunc)
  config_path : Option String

/-- ToolFabric(config_path=None): both maps start empty. -/
def ToolFabric.empty : ToolFabric :=
  { tool_instances := [], tools := [], config_path := none }

/-- ToolFabric.add_tool: create_tool then instance.start() — either
raising propagates with the fabric untouched; on success both maps are
assigned at cfg["name"] with no presence check (an existing entry is
overwritten). -/
def ToolFabric.add_tool (env : Env) (fab : ToolFabric) (cfg : ToolCfg) :
    ToolFabric × List LogEvent × Option String :=
  match create_tool cfg with
  | .error e => (fab, [], some e)
  | .ok inst =>
    match ToolInstance.start env inst with
    | (_, logs, some e) => (fab, logs, some e)
    | (inst', logs, none) =>
      ({ fab with
          tool_instances := dictInsert fab.tool_instances cfg.name inst',
          tools := dictInsert fab.tools cfg.name inst'.to_tool },
       logs ++ [LogEvent.info ("[ToolFabric] Added tool: " ++ cfg.name)], none)

/-- ToolFabric.remove_tool: guarded by `name in self.tool_instances` —
an absent name is silently skipped (no exception, no stop). When
present, the instance is stopped (a raised stop exception propagates,
leaving both map entries in place but the instance mutated) and then
both entries are deleted. -/
def ToolFabric.remove_tool (env : Env) (fab : ToolFabric) (name : String) :
    ToolFabric × List LogEvent × Option String :=
  match dictGet fab.tool_instances name with
  | none => (fab, [], none)
  | some inst =>
    match ToolInstance.stop env inst with
    | (inst', logs, some e) =>
      ({ fab with tool_instances := dictInsert fab.tool_instances name inst' },
       logs, some e)
    | (_, logs, none) =>
      ({ fab with
          tool_instances := dictDelete fab.tool_instances name,
          tools := dictDelete fab.tools name },
       logs ++ [LogEvent.info ("[ToolFabric] Removed tool: " ++ name)], none)

/-- Modelled from the spec and the usage example in the source: the
external ADK agent (the consumer) keeps its own name → invocable tool
table, and attach_tool(name, func) writes one entry into it. -/
structure Agent where
  tools : List (String × ToolFunc)

/-- Consumer-side attach_tool: one assignment into the tool table of the agent
table. -/
def Agent.attach_tool (a : Agent) (name : String) (func : ToolFunc) : Agent :=
  { a with tools := dictInsert a.tools name func }

/-- Loop of ToolFabric.attach_all_to_agent over self.tools.items(). -/
def attachEntries (entries : List (String × ToolFunc)) (a : Agent) : Agent :=
  match entries with
  | [] => a
  | (name, func) :: rest => attachEntries rest (a.attach_tool name func)

/-- ToolFabric.attach_all_to_agent: copy every current (name, func)
entry of self.tools into the agent table. -/
def ToolFabric.attach_all_to_agent (fab : ToolFabric) (a : Agent) : Agent :=
  attachEntries fab.tools a

/-- One registry mutation, for reasoning about call sequences. -/
inductive FabricOp where
  | add (cfg : ToolCfg) : FabricOp
  | remove (name : String) : FabricOp

/-- Apply one mutation to the fabric. -/
def ToolFabric.applyOp (env : Env) (fab : ToolFabric) :
    FabricOp → ToolFabric × List LogEvent × Option String
  | .add cfg => fab.add_tool env cfg
  | .remove name => fab.remove_tool env name

/-- Run a sequence of mutations on the fabric. -/
def runOps (env : Env) (ops : List FabricOp) (fab : ToolFabric) : ToolFabric :=
  match ops with
  | [] => fab
  | op :: rest => runOps env rest (fab.applyOp env op).1

/-- Run a sequence of registry mutations over a fabric paired with an
already-attached agent: add_tool and remove_tool take no agent
argument in the source, so only the fabric component evolves. -/
def runSys (env : Env) (ops : List FabricOp) (s : ToolFabric × Agent) :
    ToolFabric × Agent :=
  match ops with
  | [] => s
  | op :: rest => runSys env rest ((s.1.applyOp env op).1, s.2)

/-- Nodup keys: the well-formedness of a dict as an association list. -/
def NodupKeys {α : Type} (l : List (String × α)) : Prop :=
  (dictKeys l).Nodup

/-- An environment where every external effect succeeds and the
example module resolves get_userInfo. -/
def envOk : Env :=
  { popen := fun _ => .ok 7,
    import_module := fun _ =>
      .ok { attrs := [("get_userInfo", fun _ => .ok (Value.str ("user")))] },
    terminate := fun _ => .ok () }

/-- An environment whose process launches raise (unlaunchable command). -/
def envLaunchFail : Env :=
  { envOk with popen := fun _ => .error ("FileNotFoundError") }

/-- An environment whose module imports raise. -/
def envImportFail : Env :=
  { envOk with import_module := fun _ => .error ("ImportError") }

/-- An environment whose process termination raises. -/
def envTermFail : Env :=
  { envOk with terminate := fun _ => .error ("PermissionError") }

/-- A process-backed tool configuration named "t" with command "a". -/
def cfgA : ToolCfg :=
  { name := "t", command := some ["a"], module := none, function := none,
    health_check := none, mcp_clients := none }

/-- A second process-backed configuration under the same name "t",
with command "b". -/
def cfgB : ToolCfg :=
  { cfgA with command := some ["b"] }

/-- A configuration with neither command nor module+function. -/
def cfgBad : ToolCfg :=
  { name := "ghost", command := none, module := none, function := none,
    health_check := none, mcp_clients := none }

/-- A configuration carrying command, module and function at once. -/
def cfgBoth : ToolCfg :=
  { name := "both", command := some ["c"], module := some ("m"),
    function := some ("f"), health_check := none, mcp_clients := none }

/-- A function-backed configuration. -/
def cfgEcho : ToolCfg :=
  { name := "echo", command := none, module := some ("enterprise_tools.user"),
    function := some ("get_userInfo"), health_check := none, mcp_clients := none }

/-- A client whose connection is down (fresh, no monitor thread). -/
def offClient : MCPClient :=
  { name := "c1", host := "localhost", port := 8081, token := none,
    protocol := "stdio", connected := false, stop_health := false,
    health_thread := false, health_alive := false }

/-- A connected client with a live monitor thread. -/
def onClient : MCPClient :=
  { offClient with
    name := "c2", connected := true,
    health_thread := true, health_alive := true }

/-- A callable returning its single input (the "echo" example). -/
def echoFn : Callable :=
  fun args =>
    match args with
    | [v] => .ok v
    | _ => .error ("TypeError")

/-- Instance state of a started "echo" function-backed tool owning one
connected client. -/
def echoState : BaseToolState :=
  { name := "echo", config := cfgEcho, mcp_clients := [onClient],
    health_threads := [] }

/-- Instance state of a process-backed tool "t" whose only client is
disconnected. -/
def procState : BaseToolState :=
  { name := "t", config := cfgA, mcp_clients := [offClient],
    health_threads := [] }

/-- The argument record of the echo example invocation. -/
def vx : Value := Value.obj [("x", Value.num 1)]

/-- A trivial invocable used to populate demo agent tables. -/
def demoFunc : ToolFunc := fun _ => (.ok Value.null, [])

/-- A fabric holding one visible tool "t" (for the attachment claim). -/
def demoFab : ToolFabric :=
  { tool_instances := [("t", ToolInstance.mcpBased procState (some 7))],
    tools := [("t", demoFunc)], config_path := none }

/-- A consumer with an empty tool table. -/
def demoAgent : Agent := { tools := [] }

theorem dictGet_insert_self {α : Type} (l : List (String × α)) (k : String) (v : α) :
    dictGet (dictInsert l k v) k = some v := by
  induction l with
  | nil => simp [dictInsert, dictGet]
  | cons p rest ih =>
    obtain ⟨k', v'⟩ := p
    by_cases h : k' = k
    · simp [dictInsert, dictGet, h]
    · simp [dictInsert, dictGet, h, ih]

theorem dictGet_insert_ne {α : Type} (l : List (String × α)) (k n : String) (v : α)
    (h : k ≠ n) : dictGet (dictInsert l k v) n = dictGet l n := by
  induction l with
  | nil => simp [dictInsert, dictGet, h]
  | cons p rest ih =>
    obtain ⟨k', v'⟩ := p
    by_cases hk : k' = k
    · subst hk
      simp [dictInsert, dictGet, h]
    · simp [dictInsert, dictGet, hk, ih]

theorem mem_dictKeys_of_get {α : Type} (l : List (String × α)) (k : String) (v : α)
    (h : dictGet l k = some v) : k ∈ dictKeys l := by
  induction l with
  | nil => simp [dictGet] at h
  | cons p rest ih =>
    obtain ⟨k', v'⟩ := p
    by_cases hk : k' = k
    · simp [dictKeys, hk]
    · simp only [dictGet, hk, if_false] at h
      simp [dictKeys] at ih ⊢
      exact Or.inr (ih h)

theorem dictKeys_cons {α : Type} (p : String × α) (l : List (String × α)) :
    dictKeys (p :: l) = p.1 :: dictKeys l := rfl

theorem get_none_of_not_mem_dictKeys {α : Type} (l : List (String × α)) (k : String)
    (h : k ∉ dictKeys l) : dictGet l k = none := by
  induction l with
  | nil => simp [dictGet]
  | cons p rest ih =>
    obtain ⟨k', v'⟩ := p
    rw [dictKeys_cons, List.mem_cons] at h
    push_neg at h
    show (if k' = k then some v' else dictGet rest k) = none
    rw [if_neg (fun he => h.1 he.symm)]
    exact ih h.2

theorem dictKeys_insert {α : Type} (l : List (String × α)) (k : String) (v : α) :
    dictKeys (dictInsert l k v) =
      if k ∈ dictKeys l then dictKeys l else dictKeys l ++ [k] := by
  induction l with
  | nil => simp [dictInsert, dictKeys]
  | cons p rest ih =>
    obtain ⟨k', v'⟩ := p
    by_cases hk : k' = k
    · subst hk
      simp [dictInsert, dictKeys]
    · have hne : ¬(k = k') := fun h => hk h.symm
      have hins : dictInsert ((k', v') :: rest) k v = (k', v') :: dictInsert rest k v := by
        simp [dictInsert, hk]
      rw [hins, dictKeys_cons, dictKeys_cons, ih]
      by_cases hmem : k ∈ dictKeys rest
      · rw [if_pos hmem, if_pos (List.mem_cons_of_mem _ hmem)]
      · have hcond : k ∉ ((k', v') : String × α).1 :: dictKeys rest := by
          rw [List.mem_cons]
          rintro (h | h)
          · exact hne h
          · exact hmem h
        rw [if_neg hmem, if_neg hcond]
        rfl

theorem dictKeys_delete {α : Type} (l : List (String × α)) (k : String) :
    dictKeys (dictDelete l k) = (dictKeys l).filter (fun x => x ≠ k) := by
  induction l with
  | nil => simp [dictDelete, dictKeys]
  | cons p rest ih =>
    obtain ⟨k', v'⟩ := p
    by_cases hk : k' = k
    · simp [dictDelete, dictKeys, hk, List.filter] at ih ⊢
      exact ih
    · simp [dictDelete, dictKeys, hk, List.filter] at ih ⊢
      exact ih

theorem disconnect_connected (c : MCPClient) : ((c.disconnect).1).connected = false := by
  obtain ⟨nm, hh, pp, tk, pr, conn, sh, ht, ha⟩ := c
  cases ht <;> simp [MCPClient.disconnect, healthLoop]

theorem disconnect_stop_health (c : MCPClient) : ((c.disconnect).1).stop_health = true := by
  obtain ⟨nm, hh, pp, tk, pr, conn, sh, ht, ha⟩ := c
  cases ht <;> simp [MCPClient.disconnect, healthLoop]

theorem disconnect_exits_monitor (c : MCPClient) (h : c.health_thread = true) :
    ((c.disconnect).1).health_alive = false := by
  obtain ⟨nm, hh, pp, tk, pr, conn, sh, ht, ha⟩ := c
  subst h
  simp [MCPClient.disconnect, healthLoop]

theorem disconnect_idem (c : MCPClient) :
    (((c.disconnect).1).disconnect).1 = (c.disconnect).1 := by
  obtain ⟨nm, hh, pp, tk, pr, conn, sh, ht, ha⟩ := c
  cases ht <;> simp [MCPClient.disconnect, healthLoop]

theorem healthLoop_cancelled (fuel : Nat) (c : MCPClient) (h : c.stop_health = true) :
    healthLoop (fuel + 1) c = { c with health_alive := false } := by
  simp [healthLoop, h]

theorem disconnectAll_connected (l : List MCPClient) :
    ((disconnectAll l).1).all (fun c => c.connected = false) = true := by
  induction l with
  | nil => simp [disconnectAll]
  | cons c rest ih =>
    simp only [disconnectAll, List.all_cons, ih, Bool.and_true]
    simp [disconnect_connected c]

theorem stop_disconnects (st : BaseToolState) :
    (((BaseTool.stop st).1).mcp_clients).all (fun c => c.connected = false) = true := by
  exact disconnectAll_connected st.mcp_clients

theorem attachEntries_not_mem (entries : List (String × ToolFunc)) (a : Agent)
    (n : String) (h : n ∉ dictKeys entries) :
    dictGet (attachEntries entries a).tools n = dictGet a.tools n := by
  induction entries generalizing a with
  | nil => rfl
  | cons p rest ih =>
    obtain ⟨k, f⟩ := p
    rw [dictKeys_cons, List.mem_cons] at h
    push_neg at h
    show dictGet (attachEntries rest (a.attach_tool k f)).tools n = dictGet a.tools n
    rw [ih _ h.2]
    exact dictGet_insert_ne a.tools k n f (fun he => h.1 he.symm)

theorem attachEntries_get (entries : List (String × ToolFunc)) (a : Agent)
    (n : String) (v : ToolFunc) (hnd : NodupKeys entries)
    (hv : dictGet entries n = some v) :
    dictGet (attachEntries entries a).tools n = some v := by
  induction entries generalizing a with
  | nil => simp [dictGet] at hv
  | cons p rest ih =>
    obtain ⟨k, f⟩ := p
    have hnd' : (dictKeys rest).Nodup ∧ k ∉ dictKeys rest := by
      have := hnd
      rw [NodupKeys, dictKeys_cons, List.nodup_cons] at this
      exact ⟨this.2, this.1⟩
    by_cases hk : k = n
    · subst hk
      have hfv : f = v := by
        have : dictGet ((k, f) :: rest) k = some f := by
          show (if k = k then some f else dictGet rest k) = some f
          rw [if_pos rfl]
        rw [this] at hv
        exact Option.some.inj hv
      subst hfv
      show dictGet (attachEntries rest (a.attach_tool k f)).tools k = some f
      rw [attachEntries_not_mem rest _ k hnd'.2]
      exact dictGet_insert_self a.tools k f
    · have hv' : dictGet rest n = some v := by
        have : dictGet ((k, f) :: rest) n = dictGet rest n := by
          show (if k = n then some f else dictGet rest n) = dictGet rest n
          rw [if_neg hk]
        rw [this] at hv
        exact hv
      exact ih (a.attach_tool k f) hnd'.1 hv'

theorem runSys_snd (env : Env) (ops : List FabricOp) (s : ToolFabric × Agent) :
    (runSys env ops s).2 = s.2 := by
  induction ops generalizing s with
  | nil => rfl
  | cons op rest ih => exact ih _

/-- C10: for every tool configuration containing a command key,
create_tool builds the process-backed variant even when module and
function are also present (command takes precedence); a configuration
with neither command nor both module and function raises ValueError. -/
theorem C10_create_tool_command_precedence (cfg : ToolCfg) :
    (∀ cmd : List String, cfg.command = some cmd →
      create_tool cfg = .ok (ToolInstance.mcpBased
        { name := cfg.name, config := cfg,
          mcp_clients := [], health_threads := [] } none))
    ∧ (cfg.command = none → (cfg.module = none ∨ cfg.function = none) →
      create_tool cfg = .error ("Unknown tool type for " ++ cfg.name)) := by
  constructor
  · intro cmd hcmd
    simp [create_tool, hcmd]
  · intro hcmd hmf
    rcases hmf with h | h <;> simp [create_tool, hcmd, h]

/-- Witness for C10: a configuration carrying command, module and
function yields the process-backed variant; one with none of them is
rejected. -/
theorem C10_witness :
    create_tool cfgBoth = .ok (ToolInstance.mcpBased
      { name := "both", config := cfgBoth,
        mcp_clients := [], health_threads := [] } none)
    ∧ create_tool cfgBad = .error ("Unknown tool type for ghost") :=
  ⟨((C10_create_tool_command_precedence cfgBoth).1 ["c"] rfl).trans rfl,
   ((C10_create_tool_command_precedence cfgBad).2 rfl (Or.inl rfl)).trans rfl⟩

/-- C4: a function-backed tool whose start resolved its callable
invokes the callable synchronously and returns exactly its result
(errors it raises propagate verbatim, before any send); when the call
succeeds, a result-record is pushed through send on every client
handle. -/
theorem C4_function_tool_invoke (st : BaseToolState) (f : Callable) (args : List Value) :
    (InternalFunctionTool.to_tool st (some f) args).1 = f args
    ∧ (∀ r : Value, f args = .ok r →
        (InternalFunctionTool.to_tool st (some f) args).2
          = sendAll st.mcp_clients (Value.obj [("result", r)])) := by
  constructor
  · cases h : f args <;> simp [InternalFunctionTool.to_tool, h]
  · intro r hr
    simp [InternalFunctionTool.to_tool, hr]

/-- Witness for C4: the "echo" tool wrapping the identity callable
returns the x-equals-one record when invoked with it, and forwards the
result-record to its connected client. -/
theorem C4_witness :
    (InternalFunctionTool.to_tool echoState (some echoFn) [vx]).1 = Except.ok vx
    ∧ (InternalFunctionTool.to_tool echoState (some echoFn) [vx]).2
        = [LogEvent.sendEvent ("c2") ("stdio") (Value.obj [("result", vx)])] := by
  refine ⟨?_, ?_⟩
  · exact ((C4_function_tool_invoke echoState echoFn [vx]).1).trans rfl
  · exact ((C4_function_tool_invoke echoState echoFn [vx]).2 vx rfl).trans rfl

/-- C5: send on a client that is not connected is a no-op on the
client state, produces exactly one dropped-message warning (the drop
is countable from the log), and has no exception path in its type;
consequently invoking a process-backed tool whose client handles are
all disconnected still returns the acknowledgement string. -/
theorem C5_send_drops_when_not_connected (c : MCPClient) (p : Value)
    (h : c.connected = false) :
    c.send p = (c, [LogEvent.droppedWarning c.name])
    ∧ droppedCount (c.send p).2 = 1
    ∧ ∀ (st : BaseToolState) (proc : Option Nat) (action : String) (payload : Value),
        ((st.mcp_clients).all fun cl => cl.connected = false) = true →
        (ToolInstance.to_tool (ToolInstance.mcpBased st proc)
            [Value.str action, payload]).1
          = Except.ok (Value.str ("[" ++ st.name ++ "] " ++ action ++ " executed")) := by
  refine ⟨?_, ?_, ?_⟩
  · simp [MCPClient.send, h]
  · simp [MCPClient.send, h, droppedCount]
  · intro st proc action payload hall
    simp [ToolInstance.to_tool, MCPBasedTool.to_tool]

/-- Witness for C5: a concrete disconnected client drops one counted
message, and the owning process-backed tool still acknowledges. -/
theorem C5_witness :
    offClient.send vx = (offClient, [LogEvent.droppedWarning ("c1")])
    ∧ droppedCount (offClient.send vx).2 = 1
    ∧ (ToolInstance.to_tool (ToolInstance.mcpBased procState (some 7))
        [Value.str ("goto"), vx]).1 = Except.ok (Value.str ("[t] goto executed")) := by
  have h := C5_send_drops_when_not_connected offClient vx rfl
  refine ⟨h.1.trans rfl, h.2.1, ?_⟩
  exact (h.2.2 procState (some 7) ("goto") vx (by decide)).trans rfl

/-- C6: disconnect sets the cancellation signal and the disconnected
state, and after it returns the monitoring task (when one was started)
has observed cancellation and exited; disconnecting a second time
leaves the handle in the same torn-down state. -/
theorem C6_disconnect_cancels_and_joins (c : MCPClient) :
    ((c.disconnect).1).connected = false
    ∧ ((c.disconnect).1).stop_health = true
    ∧ (c.health_thread = true → ((c.disconnect).1).health_alive = false)
    ∧ (((c.disconnect).1).disconnect).1 = (c.disconnect).1 :=
  ⟨disconnect_connected c, disconnect_stop_health c,
   fun h => disconnect_exits_monitor c h, disconnect_idem c⟩

/-- Witness for C6: on a connected client with a live monitor thread,
disconnect tears the monitor down and is idempotent. -/
theorem C6_witness :
    ((onClient.disconnect).1).health_alive = false
    ∧ (((onClient.disconnect).1).disconnect).1 = (onClient.disconnect).1 :=
  ⟨(C6_disconnect_cancels_and_joins onClient).2.2.1 rfl,
   (C6_disconnect_cancels_and_joins onClient).2.2.2⟩

/-- C2: when the start of the instance raises, add_tool propagates that
error and returns the fabric untouched, so a name absent before the
call is absent from both maps afterwards (no partial registration). -/
theorem C2_failed_start_leaves_registry_unchanged (env : Env) (fab : ToolFabric)
    (cfg : ToolCfg) (inst inst' : ToolInstance) (logs : List LogEvent) (e : String)
    (hc : create_tool cfg = .ok inst)
    (hs : ToolInstance.start env inst = (inst', logs, some e)) :
    fab.add_tool env cfg = (fab, logs, some e)
    ∧ (dictGet fab.tool_instances cfg.name = none →
        dictGet (fab.add_tool env cfg).1.tool_instances cfg.name = none)
    ∧ (dictGet fab.tools cfg.name = none →
        dictGet (fab.add_tool env cfg).1.tools cfg.name = none) := by
  have hmain : fab.add_tool env cfg = (fab, logs, some e) := by
    simp [ToolFabric.add_tool, hc, hs]
  refine ⟨hmain, ?_, ?_⟩ <;> intro h0 <;> rw [hmain] <;> exact h0

/-- Witness for C2: adding a process-backed tool whose command is
unlaunchable fails with the launch error and leaves the empty fabric
without the name. -/
theorem C2_witness :
    ToolFabric.empty.add_tool envLaunchFail cfgA
      = (ToolFabric.empty, [], some ("FileNotFoundError"))
    ∧ dictGet (ToolFabric.empty.add_tool envLaunchFail cfgA).1.tools ("t") = none := by
  have h := C2_failed_start_leaves_registry_unchanged envLaunchFail ToolFabric.empty cfgA
      (ToolInstance.mcpBased
        { name := "t", config := cfgA, mcp_clients := [], health_threads := [] } none)
      (ToolInstance.mcpBased
        { name := "t", config := cfgA, mcp_clients := [], health_threads := [] } none)
      [] ("FileNotFoundError") rfl rfl
  exact ⟨h.1, h.2.2 rfl⟩

/-- C8: attach_all_to_agent copies each visible (name, invocable)
entry into the own table of the consumer, and the attachment creates no
lasting linkage: any later sequence of add_tool and remove_tool calls
leaves the table of the already-attached consumer unchanged. -/
theorem C8_attach_all_copies_no_linkage (env : Env) (fab : ToolFabric) (a : Agent)
    (ops : List FabricOp) (n : String) (v : ToolFunc)
    (hnd : NodupKeys fab.tools) (hv : dictGet fab.tools n = some v) :
    dictGet (fab.attach_all_to_agent a).tools n = some v
    ∧ (runSys env ops (fab, fab.attach_all_to_agent a)).2 = fab.attach_all_to_agent a :=
  ⟨attachEntries_get fab.tools a n v hnd hv, runSys_snd env ops _⟩

/-- Witness for C8: the "t" entry of the demo fabric is copied into an
empty consumer, and removing "t" from the fabric afterwards leaves
the consumer table as attached. -/
theorem C8_witness :
    dictGet (demoFab.attach_all_to_agent demoAgent).tools ("t") = some demoFunc
    ∧ (runSys envOk [FabricOp.remove ("t")]
        (demoFab, demoFab.attach_all_to_agent demoAgent)).2
      = demoFab.attach_all_to_agent demoAgent :=
  C8_attach_all_copies_no_linkage envOk demoFab demoAgent [FabricOp.remove ("t")] ("t")
    demoFunc (by simp [NodupKeys, dictKeys, demoFab]) rfl

theorem add_tool_preserves_keys (env : Env) (fab : ToolFabric) (cfg : ToolCfg)
    (h : dictKeys fab.tool_instances = dictKeys fab.tools) :
    dictKeys ((fab.add_tool env cfg).1).tool_instances
      = dictKeys ((fab.add_tool env cfg).1).tools := by
  cases hc : create_tool cfg with
  | error e =>
    have hred : (fab.add_tool env cfg).1 = fab := by
      simp [ToolFabric.add_tool, hc]
    rw [hred]
    exact h
  | ok inst =>
    rcases hs : ToolInstance.start env inst with ⟨inst', logs, exn⟩
    cases exn with
    | some e =>
      have hred : (fab.add_tool env cfg).1 = fab := by
        simp [ToolFabric.add_tool, hc, hs]
      rw [hred]
      exact h
    | none =>
      have hred : (fab.add_tool env cfg).1
          = { fab with
              tool_instances := dictInsert fab.tool_instances cfg.name inst',
              tools := dictInsert fab.tools cfg.name inst'.to_tool } := by
        simp [ToolFabric.add_tool, hc, hs]
      rw [hred]
      show dictKeys (dictInsert fab.tool_instances cfg.name inst')
        = dictKeys (dictInsert fab.tools cfg.name inst'.to_tool)
      rw [dictKeys_insert, dictKeys_insert, h]

theorem remove_tool_preserves_keys (env : Env) (fab : ToolFabric) (name : String)
    (h : dictKeys fab.tool_instances = dictKeys fab.tools) :
    dictKeys ((fab.remove_tool env name).1).tool_instances
      = dictKeys ((fab.remove_tool env name).1).tools := by
  cases hg : dictGet fab.tool_instances name with
  | none =>
    have hred : (fab.remove_tool env name).1 = fab := by
      simp [ToolFabric.remove_tool, hg]
    rw [hred]
    exact h
  | some inst =>
    rcases hs : ToolInstance.stop env inst with ⟨inst', logs, exn⟩
    cases exn with
    | some e =>
      have hred : (fab.remove_tool env name).1
          = { fab with tool_instances := dictInsert fab.tool_instances name inst' } := by
        simp [ToolFabric.remove_tool, hg, hs]
      rw [hred]
      show dictKeys (dictInsert fab.tool_instances name inst') = dictKeys fab.tools
      rw [dictKeys_insert,
          if_pos (mem_dictKeys_of_get fab.tool_instances name inst hg), h]
    | none =>
      have hred : (fab.remove_tool env name).1
          = { fab with
              tool_instances := dictDelete fab.tool_instances name,
              tools := dictDelete fab.tools name } := by
        simp [ToolFabric.remove_tool, hg, hs]
      rw [hred]
      show dictKeys (dictDelete fab.tool_instances name)
        = dictKeys (dictDelete fab.tools name)
      rw [dictKeys_delete, dictKeys_delete, h]

/-- C9: starting from a fresh empty fabric, after any sequence of
add_tool and remove_tool calls the key set of tool_instances equals
the key set of the visible tools map (this holds on every path,
normal or raising, so in particular after every normally-returning
sequence). -/
theorem C9_instance_and_tool_keys_agree (env : Env) (ops : List FabricOp) :
    dictKeys (runOps env ops ToolFabric.empty).tool_instances
      = dictKeys (runOps env ops ToolFabric.empty).tools := by
  have hgen : ∀ (ops' : List FabricOp) (fab : ToolFabric),
      dictKeys fab.tool_instances = dictKeys fab.tools →
      dictKeys (runOps env ops' fab).tool_instances
        = dictKeys (runOps env ops' fab).tools := by
    intro ops'
    induction ops' with
    | nil => intro fab h; exact h
    | cons op rest ih =>
      intro fab h
      cases op with
      | add cfg => exact ih _ (add_tool_preserves_keys env fab cfg h)
      | remove name => exact ih _ (remove_tool_preserves_keys env fab name h)
  exact hgen ops ToolFabric.empty rfl

/-- C1 counterexample: adding a second descriptor under the name "t"
does not fail with a duplicate-name error (the exception slot is none)
and the mapping afterwards holds the second instance (config cfgB,
command "b"), not the first: add_tool performs no presence check and
overwrites. -/
theorem C1_counterexample :
    (((ToolFabric.empty.add_tool envOk cfgA).1).add_tool envOk cfgB).2.2 = none
    ∧ dictGet (((ToolFabric.empty.add_tool envOk cfgA).1).add_tool
        envOk cfgB).1.tool_instances ("t")
      = some (ToolInstance.mcpBased
          { name := "t", config := cfgB,
            mcp_clients := [], health_threads := [] } (some 7)) :=
  ⟨rfl, rfl⟩

/-- C1 amended: for a descriptor whose name is already present, when
construction and start succeed, add_tool succeeds (no DuplicateName
failure exists), replaces the visible entry with the new instance, and
leaves both key sets unchanged. -/
theorem C1_amended_add_tool_overwrites (env : Env) (fab : ToolFabric) (cfg : ToolCfg)
    (inst inst' : ToolInstance) (logs : List LogEvent)
    (hp1 : cfg.name ∈ dictKeys fab.tools)
    (hp2 : cfg.name ∈ dictKeys fab.tool_instances)
    (hc : create_tool cfg = .ok inst)
    (hs : ToolInstance.start env inst = (inst', logs, none)) :
    (fab.add_tool env cfg).2.2 = none
    ∧ dictGet (fab.add_tool env cfg).1.tool_instances cfg.name = some inst'
    ∧ dictKeys (fab.add_tool env cfg).1.tools = dictKeys fab.tools
    ∧ dictKeys (fab.add_tool env cfg).1.tool_instances
        = dictKeys fab.tool_instances := by
  have hred : fab.add_tool env cfg
      = ({ fab with
            tool_instances := dictInsert fab.tool_instances cfg.name inst',
            tools := dictInsert fab.tools cfg.name inst'.to_tool },
         logs ++ [LogEvent.info ("[ToolFabric] Added tool: " ++ cfg.name)], none) := by
    simp [ToolFabric.add_tool, hc, hs]
  rw [hred]
  refine ⟨rfl, dictGet_insert_self _ _ _, ?_, ?_⟩
  · show dictKeys (dictInsert fab.tools cfg.name inst'.to_tool) = dictKeys fab.tools
    rw [dictKeys_insert, if_pos hp1]
  · show dictKeys (dictInsert fab.tool_instances cfg.name inst')
      = dictKeys fab.tool_instances
    rw [dictKeys_insert, if_pos hp2]

/-- Witness for the amended C1: the second registration of "t"
succeeds and the stored instance is the one built from cfgB. -/
theorem C1_witness :
    ((((ToolFabric.empty.add_tool envOk cfgA).1).add_tool envOk cfgB).2.2 = none)
    ∧ dictKeys (((ToolFabric.empty.add_tool envOk cfgA).1).add_tool
        envOk cfgB).1.tools
      = dictKeys ((ToolFabric.empty.add_tool envOk cfgA).1).tools := by
  have h := C1_amended_add_tool_overwrites envOk
      (ToolFabric.empty.add_tool envOk cfgA).1 cfgB
      (ToolInstance.mcpBased
        { name := "t", config := cfgB, mcp_clients := [], health_threads := [] } none)
      (ToolInstance.mcpBased
        { name := "t", config := cfgB, mcp_clients := [], health_threads := [] } (some 7))
      [LogEvent.info ("[MCPBasedTool:t] Ready")]
      (by decide) (by decide) rfl rfl
  exact ⟨h.1, h.2.2.1⟩

/-- C3 counterexample: removing an absent name from the empty fabric
does not fail with a NotFound error — the call silently returns with
no exception, no log and no state change. -/
theorem C3_counterexample :
    ToolFabric.empty.remove_tool envOk ("ghost") = (ToolFabric.empty, [], none) := rfl

/-- C3 amended: remove_tool on a name that is absent from the registry
is a silent no-op: no NotFound failure is raised, the fabric is
unchanged, and no stop (hence no resource release) runs — so a second
removal of the same name releases nothing twice but also reports no
error. -/
theorem C3_amended_remove_absent_silent (env : Env) (fab : ToolFabric) (name : String)
    (h : dictGet fab.tool_instances name = none) :
    fab.remove_tool env name = (fab, [], none) := by
  simp [ToolFabric.remove_tool, h]

/-- Witness for the amended C3: the concrete no-op on the empty
fabric. -/
theorem C3_witness :
    ToolFabric.empty.remove_tool envImportFail ("ghost")
      = (ToolFabric.empty, [], none) :=
  C3_amended_remove_absent_silent envImportFail ToolFabric.empty ("ghost") rfl

/-- C7 counterexample: stopping a process-backed tool whose process
termination raises does not complete normally — the termination error
propagates to the caller of stop (the source has no handler around
self.process.terminate()). -/
theorem C7_counterexample :
    (ToolInstance.stop envTermFail (ToolInstance.mcpBased procState (some 7))).2.2
      = some ("PermissionError") := rfl

/-- C7 amended: stop first disconnects all client handles and then
terminates the owned process; the final instance state carries the
disconnected handles in both outcomes (so the disconnects happened
before termination), but a termination error is not caught: it
propagates out of stop instead of being logged and swallowed. -/
theorem C7_amended_stop_order_and_error (env : Env) (st : BaseToolState) (pid : Nat) :
    (ToolInstance.stop env (ToolInstance.mcpBased st (some pid))).1
      = ToolInstance.mcpBased ((BaseTool.stop st).1) (some pid)
    ∧ (match env.terminate pid with
        | .ok _ =>
          (ToolInstance.stop env (ToolInstance.mcpBased st (some pid))).2.2 = none
        | .error e =>
          (ToolInstance.stop env (ToolInstance.mcpBased st (some pid))).2.2 = some e)
    ∧ ((((BaseTool.stop st).1).mcp_clients).all fun c => c.connected = false) = true := by
  refine ⟨?_, ?_, stop_disconnects st⟩
  · cases ht : env.terminate pid <;>
      simp [ToolInstance.stop, MCPBasedTool.stop, ht]
  · cases ht : env.terminate pid <;>
      simp [ToolInstance.stop, MCPBasedTool.stop, ht]
